import Mathlib

/-!
Shallow embedding of the CourtMate booking service, from src/app/main.py
and src/app/models.py: the pydantic data model and the three reservation
endpoints (list, create, cancel). The Supabase backend, the identity
endpoint and the client factory are collaborators of the code; they enter
the embedding as explicit parameters whose constructors mirror exactly the
outcomes the Python code distinguishes (APIError, other exception, or a
response with a data attribute).
-/

namespace Booking

/-- UUID values, identified with their canonical string rendering, so that
the str conversion applied in main.py is the identity. -/
abbrev Uuid := String

/-- Timezone-aware instants, identified with their position on the time
line; datetime.isoformat is an injective rendering, and the embedding
identifies an instant with its rendering. -/
abbrev Timestamp := Int

/-- Prices; the service only carries them, never computes with them. -/
abbrev Price := Int

/-- models.py, ReservationCreate: the validated create payload. -/
structure ReservationCreate where
  court_id : Uuid
  starts_at : Timestamp
  ends_at : Timestamp
  deriving Repr, DecidableEq

/-- models.py, Reservation: the output model; cancelled_at and
cancel_reason default to None. -/
structure Reservation where
  id : Uuid
  court_id : Uuid
  user_id : Uuid
  starts_at : Timestamp
  ends_at : Timestamp
  total_price : Price
  created_at : Timestamp
  cancelled_at : Option Timestamp := none
  cancel_reason : Option String := none
  deriving Repr, DecidableEq

/-- A raw row as returned by the Supabase REST backend: a dict whose keys
may or may not be present. Parsing into the pydantic model fails when a
required field is absent (or, in Python, ill-typed; the embedding types
the values, so absence is the failure mode). -/
structure RawRow where
  id : Option Uuid
  court_id : Option Uuid
  user_id : Option Uuid
  starts_at : Option Timestamp
  ends_at : Option Timestamp
  total_price : Option Price
  created_at : Option Timestamp
  cancelled_at : Option Timestamp
  cancel_reason : Option String
  deriving Repr, DecidableEq

/-- pydantic validation of a raw row against the Reservation model,
main.py line 112 and line 217: all seven required fields must be present;
the two optional fields default to None. -/
def parseReservation (r : RawRow) : Option Reservation :=
  match r.id, r.court_id, r.user_id, r.starts_at, r.ends_at,
      r.total_price, r.created_at with
  | some i, some c, some u, some s, some e, some p, some cr =>
    some ⟨i, c, u, s, e, p, cr, r.cancelled_at, r.cancel_reason⟩
  | _, _, _, _, _, _, _ => none

/-- The court summary selected by the enrichment query in main.py line 116:
id, name, sport, facility_id. -/
structure CourtSummary where
  id : Uuid
  name : String
  sport : String
  facility_id : Uuid
  deriving Repr, DecidableEq

/-- Outcome of the admin-client court lookup for one row (main.py line
116): the single() call or the request itself may raise, or the response
carries data that is truthy (a row) or falsy (nothing). -/
inductive CourtLookup where
  | failure (msg : String)
  | empty
  | found (c : CourtSummary)

/-- Declared field names of the pydantic Reservation model, models.py
lines 11 to 20. There is no field named court. -/
def reservationFields : List String :=
  ["id", "court_id", "user_id", "starts_at", "ends_at", "total_price",
   "created_at", "cancelled_at", "cancel_reason"]

/-- pydantic BaseModel attribute assignment under the default model
config: assigning to a name that is not a declared field raises ValueError
(object has no field); this holds in both pydantic major versions. -/
def setattrAllowed (fields : List String) (name : String) : Bool :=
  fields.contains name

/-- An HTTP outcome of an endpoint: a success with a status code and a
typed body, or an HTTPException with a status code and a detail string. -/
inductive Resp (α : Type) where
  | ok (status : Nat) (body : α)
  | err (status : Nat) (detail : String)
  deriving Repr, DecidableEq

/-- A reservation as it appears in the list response, paired with the
court summary that actually got attached to it (none when nothing was). -/
abbrev EnrichedReservation := Reservation × Option CourtSummary

/-- Enrichment of one parsed reservation, main.py lines 115 to 122: fetch
the court summary with the admin client, and on truthy data assign it to
reservation.court. Reservation declares no court field, so the pydantic
setattr raises ValueError; the inner except swallows any exception from
this block (lookup failure or the setattr ValueError) and continues with
the court absent. -/
def enrichCourt (lookup : Uuid → CourtLookup) (res : Reservation) :
    EnrichedReservation :=
  match lookup res.court_id with
  | .failure _ => (res, none)
  | .empty => (res, none)
  | .found c =>
    if setattrAllowed reservationFields "court" then (res, some c)
    else (res, none)

/-- The per-row loop of get_user_reservations, main.py lines 109 to 127:
parse each row into a Reservation (a row that fails to parse is logged and
skipped), enrich it with the court summary, and append in query order. -/
def processRows (lookup : Uuid → CourtLookup) :
    List RawRow → List EnrichedReservation
  | [] => []
  | item :: rest =>
    match parseReservation item with
    | some res => enrichCourt lookup res :: processRows lookup rest
    | none => processRows lookup rest

/-- Outcome of the reservations table query in main.py line 99: the
execute call may raise an APIError or another exception, or return a
response whose data attribute is None or a list of rows. -/
inductive QueryResult where
  | apiError (msg : String)
  | failure (msg : String)
  | ok (data : Option (List RawRow))

/-- Outcome of constructing a Supabase client (user_supabase_client or
admin_supabase_client); construction may raise. -/
inductive ClientInit where
  | ok
  | failure (msg : String)

/-- GET /reservation/, main.py lines 86 to 143. Client construction (lines
92 and 93) happens outside the try block, so a raising factory escapes the
handler and the framework answers with a plain 500. Inside the try: a
falsy data attribute returns the empty list; otherwise the rows are parsed
and enriched in order; an APIError from the query maps to 400 and any
other exception to 500. -/
def get_user_reservations (client : ClientInit) (q : QueryResult)
    (lookup : Uuid → CourtLookup) : Resp (List EnrichedReservation) :=
  match client with
  | .failure _ => .err 500 "Internal Server Error"
  | .ok =>
    match q with
    | .apiError m => .err 400 ("Supabase error: " ++ m)
    | .failure m => .err 500 m
    | .ok none => .ok 200 []
    | .ok (some rows) =>
      if rows.isEmpty then .ok 200 []
      else .ok 200 (processRows lookup rows)

/-- Python str applied to the result of dict.get: str of None is the
four-letter string None. -/
def pyStr : Option String → String
  | none => "None"
  | some s => s

/-- Parsed body of the identity response, main.py line 181: the json call
may raise, or yields an object whose get of the id key is the id field
when present and None otherwise. -/
inductive JsonBody where
  | invalid (msg : String)
  | object (idField : Option String)

/-- Outcome of the httpx.get call to the identity endpoint, main.py lines
172 to 179: the transport may raise (timeout, connection error), or an
HTTP response with a status code and a body arrives. -/
inductive IdentityResult where
  | transportError (msg : String)
  | response (status : Nat) (body : JsonBody)

/-- The record inserted into the reservations table, main.py lines 197 to
202: str of the payload court id, str of the resolved user id, and the
isoformat of the two instants. -/
structure InsertRecord where
  court_id : String
  user_id : String
  starts_at : Timestamp
  ends_at : Timestamp
  deriving Repr, DecidableEq

/-- Outcome of the insert execute call in main.py line 205: APIError,
another exception, or a response whose data attribute is None or a list of
created rows. -/
inductive InsertResult where
  | apiError (msg : String)
  | failure (msg : String)
  | ok (data : Option (List RawRow))

/-- Result of the create handler together with the record that was
actually sent to the insert call, none when no insert was issued. -/
structure CreateOutcome where
  resp : Resp Reservation
  inserted : Option InsertRecord

/-- Mapping of the insert outcome to the HTTP response, main.py lines 205
to 233: an APIError maps to 400 carrying the backend message, any other
exception to 500, a falsy or empty data attribute to the 500 with detail
Failed to create reservation (main.py lines 208 to 213, preserved as a 500
by the reraising except HTTPException arm), and the first returned row is
validated into a Reservation (a validation failure raises and maps to 500)
and answered with status 201. -/
def respOfInsert : InsertResult → Resp Reservation
  | .apiError m => .err 400 m
  | .failure m => .err 500 m
  | .ok none => .err 500 "Failed to create reservation"
  | .ok (some []) => .err 500 "Failed to create reservation"
  | .ok (some (row :: _)) =>
    match parseReservation row with
    | none => .err 500 "pydantic validation error"
    | some res => .ok 201 res

/-- POST /reservation/, main.py lines 151 to 233. A raising client factory
maps to 401. The identity endpoint is then consulted: a transport failure,
a raising json decode, or a status other than 200 all map to 401 before
any insert, and the raised 401 passes unchanged through the reraising
except HTTPException arm. On a resolved identity the record is built with
str applied to the id field (str of None is the string None) and
inserted; an APIError maps to 400 with the backend message, a falsy or
empty data attribute to a 500 with detail Failed to create reservation, a
row that fails pydantic validation to a 500, and a parsed row is returned
with status 201. -/
def create_reservation (payload : ReservationCreate) (client : ClientInit)
    (identity : IdentityResult) (insert : InsertRecord → InsertResult) :
    CreateOutcome :=
  match client with
  | .failure _ => ⟨.err 401 "Invalid authentication token", none⟩
  | .ok =>
    match identity with
    | .transportError _ => ⟨.err 401 "Invalid authentication token", none⟩
    | .response stat body =>
      if stat == 200 then
        match body with
        | .invalid _ => ⟨.err 401 "Invalid authentication token", none⟩
        | .object idField =>
          let record : InsertRecord :=
            ⟨payload.court_id, pyStr idField, payload.starts_at,
              payload.ends_at⟩
          ⟨respOfInsert (insert record), some record⟩
      else ⟨.err 401 "Invalid authentication token", none⟩

/-- Outcome of the cancellation update in main.py lines 257 to 260: the
execute call may raise an APIError or another exception, or the backend
applies the update to the rows visible under the callers row-level policy
at the current instant. -/
inductive UpdateOutcome where
  | apiError (msg : String)
  | failure (msg : String)
  | applied (now : Timestamp) (visible : List RawRow)

/-- Semantics of the PostgREST update issued in main.py lines 257 to 260:
among the rows visible to the caller, those whose id equals the path
parameter get cancelled_at set to the current instant (Postgres reads the
special input string for now) and cancel_reason set to the supplied text;
the response data lists the updated rows. -/
def applyCancel (now : Timestamp) (reason : String) (rid : Uuid)
    (visible : List RawRow) : List RawRow :=
  (visible.filter (fun r => r.id == some rid)).map
    (fun r => { r with cancelled_at := some now, cancel_reason := some reason })

/-- Stringification of a FastAPI HTTPException, as produced by str(e):
the status code, a colon and the detail. -/
def strHTTPException (code : Nat) (detail : String) : String :=
  toString code ++ ": " ++ detail

/-- PUT /reservation/id, main.py lines 243 to 283. The client factory call
on line 251 sits outside the try block, so a raising factory escapes the
handler and the framework answers with a plain 500. Inside the try: when
the update returns no rows the code raises HTTPException(404), but this
handler has no reraising except HTTPException arm, so the generic except
Exception on line 278 catches the 404 and replaces it with a 500 whose
detail is str of the caught exception; a nonempty data list returns its
first row with status 200; an APIError maps to 400 with str of the
error. -/
def cancel_reservation (rid : Uuid) (reason : String) (client : ClientInit)
    (u : UpdateOutcome) : Resp RawRow :=
  match client with
  | .failure _ => .err 500 "Internal Server Error"
  | .ok =>
    match u with
    | .apiError m => .err 400 m
    | .failure m => .err 500 m
    | .applied now visible =>
      match applyCancel now reason rid visible with
      | [] => .err 500 (strHTTPException 404 "Reservation not found")
      | row :: _ => .ok 200 row

/-- The PostgREST contract of an insert with returned representation:
every row the backend reports as created echoes the values of the record
that was inserted. -/
def insertEchoes (insert : InsertRecord → InsertResult) : Prop :=
  ∀ record rows, insert record = .ok (some rows) →
    ∀ row ∈ rows,
      row.court_id = some record.court_id ∧
      row.user_id = some record.user_id ∧
      row.starts_at = some record.starts_at ∧
      row.ends_at = some record.ends_at

/-- The identity endpoint failed to resolve a caller: the transport raised
or the response status was not 200. -/
def identityRejected : IdentityResult → Prop
  | .transportError _ => True
  | .response stat _ => stat ≠ 200

/-- Descending comparison on raw rows by their starts_at column, the order
the query requests; rows lacking the column are unconstrained. -/
def rowDesc (a b : RawRow) : Bool :=
  match a.starts_at, b.starts_at with
  | some x, some y => decide (y ≤ x)
  | _, _ => true

/-- The record the create handler builds once the identity is resolved,
main.py lines 197 to 202. -/
def builtRecord (payload : ReservationCreate) (idField : Option String) :
    InsertRecord :=
  ⟨payload.court_id, pyStr idField, payload.starts_at, payload.ends_at⟩

/-- A fully populated sample backend row, for concrete instantiations. -/
def sampleRow : RawRow :=
  ⟨some "rid1", some "c1", some "u1", some 10, some 20, some 100, some 5,
    none, none⟩

/-- The reservation sampleRow parses to. -/
def sampleRes : Reservation := ⟨"rid1", "c1", "u1", 10, 20, 100, 5, none, none⟩

/-- A sample court summary returned by a successful enrichment lookup. -/
def sampleCourt : CourtSummary := ⟨"c1", "Court One", "tennis", "f1"⟩

/-- A sample insert backend that creates the row, echoing the inserted
record and assigning the server-side fields. -/
def echoInsert : InsertRecord → InsertResult := fun record =>
  .ok (some [⟨some "rid1", some record.court_id, some record.user_id,
    some record.starts_at, some record.ends_at, some 100, some 5,
    none, none⟩])

/-- A sample row with a late start, for ordering instantiations. -/
def rowA : RawRow :=
  ⟨some "ra", some "c1", some "u1", some 12, some 13, some 50, some 1,
    none, none⟩

/-- A sample row with an early start, for ordering instantiations. -/
def rowB : RawRow :=
  ⟨some "rb", some "c1", some "u1", some 3, some 4, some 50, some 1,
    none, none⟩

/-- A sample visible row with id X, for cancellation instantiations. -/
def rowX : RawRow :=
  ⟨some "X", some "c1", some "u1", some 12, some 13, some 50, some 1,
    none, none⟩

theorem parseReservation_eq_some {r : RawRow} {res : Reservation}
    (h : parseReservation r = some res) :
    r.id = some res.id ∧ r.court_id = some res.court_id ∧
    r.user_id = some res.user_id ∧ r.starts_at = some res.starts_at ∧
    r.ends_at = some res.ends_at ∧ r.total_price = some res.total_price ∧
    r.created_at = some res.created_at ∧
    r.cancelled_at = res.cancelled_at ∧ r.cancel_reason = res.cancel_reason := by
  unfold parseReservation at h
  split at h
  case _ i c u s e p cr hi hc hu hs he hp hcr =>
    cases h
    exact ⟨hi, hc, hu, hs, he, hp, hcr, rfl, rfl⟩
  case _ => cases h

theorem enrichCourt_fst (lookup : Uuid → CourtLookup) (res : Reservation) :
    (enrichCourt lookup res).1 = res := by
  unfold enrichCourt
  split <;> rfl

theorem processRows_map_fst (lookup : Uuid → CourtLookup)
    (rows : List RawRow) :
    (processRows lookup rows).map Prod.fst = rows.filterMap parseReservation := by
  induction rows with
  | nil => rfl
  | cons item rest ih =>
    unfold processRows
    cases hp : parseReservation item with
    | none => simpa [hp] using ih
    | some res => simp [hp, enrichCourt_fst, ih]

theorem mem_processRows {lookup : Uuid → CourtLookup} {rows : List RawRow}
    {p : EnrichedReservation} (h : p ∈ processRows lookup rows) :
    ∃ r ∈ rows, parseReservation r = some p.1 := by
  induction rows with
  | nil => cases h
  | cons item rest ih =>
    unfold processRows at h
    cases hp : parseReservation item with
    | none =>
      rw [hp] at h
      obtain ⟨r, hr, hpr⟩ := ih h
      exact ⟨r, List.mem_cons_of_mem _ hr, hpr⟩
    | some res =>
      rw [hp] at h
      cases h with
      | head =>
        refine ⟨item, List.mem_cons_self _ _, ?_⟩
        rw [hp, enrichCourt_fst]
      | tail _ h =>
        obtain ⟨r, hr, hpr⟩ := ih h
        exact ⟨r, List.mem_cons_of_mem _ hr, hpr⟩

theorem processRows_pairwise (lookup : Uuid → CourtLookup)
    (rows : List RawRow)
    (hs : List.Pairwise (fun a b => rowDesc a b = true) rows) :
    List.Pairwise (fun p q => q.1.starts_at ≤ p.1.starts_at)
      (processRows lookup rows) := by
  induction rows with
  | nil => exact List.Pairwise.nil
  | cons item rest ih =>
    rcases hs with _ | ⟨hhead, htail⟩
    unfold processRows
    cases hp : parseReservation item with
    | none => exact ih htail
    | some res =>
      refine List.Pairwise.cons ?_ (ih htail)
      intro q hq
      obtain ⟨r, hr, hpr⟩ := mem_processRows hq
      have hdesc := hhead r hr
      have hitem := (parseReservation_eq_some hp).2.2.2.1
      have hrq := (parseReservation_eq_some hpr).2.2.2.1
      rw [enrichCourt_fst]
      unfold rowDesc at hdesc
      rw [hitem, hrq] at hdesc
      simpa using hdesc

theorem create_reservation_cases (payload : ReservationCreate)
    (client : ClientInit) (identity : IdentityResult)
    (insert : InsertRecord → InsertResult) :
    create_reservation payload client identity insert =
        ⟨.err 401 "Invalid authentication token", none⟩ ∨
    ∃ idField, client = .ok ∧ identity = .response 200 (.object idField) ∧
      create_reservation payload client identity insert =
        ⟨respOfInsert (insert (builtRecord payload idField)),
          some (builtRecord payload idField)⟩ := by
  cases client with
  | failure m => exact Or.inl rfl
  | ok =>
    cases identity with
    | transportError m => exact Or.inl rfl
    | response stat body =>
      by_cases h : stat = 200
      · subst h
        cases body with
        | invalid m => exact Or.inl rfl
        | object idField => exact Or.inr ⟨idField, rfl, rfl, rfl⟩
      · left
        have hb : (stat == 200) = false := by simpa using h
        simp [create_reservation, hb]

theorem respOfInsert_ok {ir : InsertResult} {stat : Nat} {res : Reservation}
    (h : respOfInsert ir = .ok stat res) :
    stat = 201 ∧ ∃ row rest, ir = .ok (some (row :: rest)) ∧
      parseReservation row = some res := by
  cases ir with
  | apiError m => exact Resp.noConfusion h
  | failure m => exact Resp.noConfusion h
  | ok data =>
    cases data with
    | none => exact Resp.noConfusion h
    | some rows =>
      cases rows with
      | nil => exact Resp.noConfusion h
      | cons row rest =>
        simp only [respOfInsert] at h
        cases hp : parseReservation row with
        | none => rw [hp] at h; exact Resp.noConfusion h
        | some res2 =>
          rw [hp] at h
          injection h with h1 h2
          subst h1
          subst h2
          exact ⟨rfl, row, rest, rfl, hp⟩

theorem respOfInsert_status (ir : InsertResult) :
    match respOfInsert ir with
    | .ok stat _ => stat = 201
    | .err stat _ => stat = 400 ∨ stat = 401 ∨ stat = 500 := by
  cases ir with
  | apiError m => exact Or.inl rfl
  | failure m => exact Or.inr (Or.inr rfl)
  | ok data =>
    cases data with
    | none => exact Or.inr (Or.inr rfl)
    | some rows =>
      cases rows with
      | nil => exact Or.inr (Or.inr rfl)
      | cons row rest =>
        simp only [respOfInsert]
        cases hp : parseReservation row with
        | none => exact Or.inr (Or.inr rfl)
        | some res => exact rfl

theorem echoInsert_echoes : insertEchoes echoInsert := by
  intro record rows h row hrow
  simp only [echoInsert] at h
  injection h with h1
  injection h1 with h2
  subst h2
  rw [List.mem_singleton] at hrow
  subst hrow
  exact ⟨rfl, rfl, rfl, rfl⟩

/-- C1: evaluation of the cancel handler at a request whose update affects
zero rows (no visible row matches the identifier). The handler raises
HTTPException 404, but its generic except Exception arm catches that raise
(there is no reraising except HTTPException arm in this handler) and
answers 500 with str of the caught exception as detail, so the caller
receives a 500, not the 404 the claim states. -/
theorem cancel_zero_rows_answers_500 :
    cancel_reservation "r1" "weather" .ok (.applied 0 []) =
      .err 500 "404: Reservation not found" := rfl

/-- C2: the create endpoint answers 201 on every success and otherwise one
of the documented statuses 400, 401 or 500, never 200 or 204; and whenever
the insert backend echoes the inserted record, as PostgREST does for an
insert with returned representation, the success body is a Reservation
agreeing with the payload on court_id, starts_at and ends_at (being a full
Reservation it also carries id, user_id, total_price and created_at). -/
theorem create_status_discipline_and_field_agreement
    (payload : ReservationCreate) (client : ClientInit)
    (identity : IdentityResult) (insert : InsertRecord → InsertResult) :
    (match (create_reservation payload client identity insert).resp with
     | .ok stat _ => stat = 201
     | .err stat _ => stat = 400 ∨ stat = 401 ∨ stat = 500) ∧
    (insertEchoes insert →
      ∀ stat res,
        (create_reservation payload client identity insert).resp =
          .ok stat res →
        res.court_id = payload.court_id ∧
        res.starts_at = payload.starts_at ∧
        res.ends_at = payload.ends_at) := by
  rcases create_reservation_cases payload client identity insert with
    h | ⟨idField, hc, hi, h⟩
  · rw [h]
    exact ⟨Or.inr (Or.inl rfl), fun _ stat res hr => Resp.noConfusion hr⟩
  · rw [h]
    refine ⟨respOfInsert_status _, ?_⟩
    intro hecho stat res hr
    obtain ⟨hstat, row, rest, hins, hp⟩ := respOfInsert_ok hr
    have hrow := hecho _ _ hins row (List.mem_cons_self _ _)
    have hflds := parseReservation_eq_some hp
    refine ⟨?_, ?_, ?_⟩
    · injection (hrow.1.symm.trans hflds.2.1) with h1
      exact h1.symm
    · injection (hrow.2.2.1.symm.trans hflds.2.2.2.1) with h1
      exact h1.symm
    · injection (hrow.2.2.2.symm.trans hflds.2.2.2.2.1) with h1
      exact h1.symm

/-- Witness for C2: a concrete successful create through the echoing
backend, whose body agrees with the payload fields. -/
theorem create_status_discipline_and_field_agreement_witness :
    sampleRes.court_id = "c1" ∧ sampleRes.starts_at = 10 ∧
      sampleRes.ends_at = 20 :=
  (create_status_discipline_and_field_agreement ⟨"c1", 10, 20⟩ .ok
    (.response 200 (.object (some "u1"))) echoInsert).2
    echoInsert_echoes 201 sampleRes rfl

/-- C3: when the identity endpoint does not successfully resolve a caller,
because the transport raised or the status was not 200, the create handler
answers 401 with detail Invalid authentication token and no insert is
issued, whatever the client factory and the insert backend would do. -/
theorem identity_failure_answers_401_without_insert
    (payload : ReservationCreate) (client : ClientInit)
    (identity : IdentityResult) (insert : InsertRecord → InsertResult)
    (h : identityRejected identity) :
    create_reservation payload client identity insert =
      ⟨.err 401 "Invalid authentication token", none⟩ := by
  rcases create_reservation_cases payload client identity insert with
    hc | ⟨idField, _, hi, _⟩
  · exact hc
  · subst hi
    exact absurd rfl h

/-- Witness for C3: a concrete identity response with status 500 yields
the 401 and no insert. -/
theorem identity_failure_answers_401_without_insert_witness :
    create_reservation ⟨"c1", 10, 20⟩ .ok (.response 500 (.object none))
        (fun _ => .ok (some [sampleRow])) =
      ⟨.err 401 "Invalid authentication token", none⟩ :=
  identity_failure_answers_401_without_insert _ _ _ _
    (by unfold identityRejected; omega)

/-- C4: evaluation of the list pipeline on one fully parseable row whose
court lookup succeeds and returns data. The Reservation model declares no
court field, so the pydantic attribute assignment raises ValueError inside
the enrichment try block, the inner except swallows it, and the row comes
back with no court summary attached: the attachment the claim states never
happens, for any row. -/
theorem successful_lookup_attaches_no_court :
    get_user_reservations .ok (.ok (some [sampleRow]))
        (fun _ => .found sampleCourt) = .ok 200 [(sampleRes, none)] := rfl

/-- C5: a create whose insert completes without a backend-reported error
but returns no row, a None or empty data attribute, answers 500 with
detail Failed to create reservation; the raised 500 passes unchanged
through the reraising except HTTPException arm of this handler. -/
theorem insert_without_row_answers_500
    (payload : ReservationCreate) (idField : Option String)
    (insert : InsertRecord → InsertResult)
    (h : insert (builtRecord payload idField) = .ok none ∨
         insert (builtRecord payload idField) = .ok (some [])) :
    (create_reservation payload .ok (.response 200 (.object idField))
        insert).resp = .err 500 "Failed to create reservation" := by
  have hcreate : create_reservation payload .ok
      (.response 200 (.object idField)) insert =
      ⟨respOfInsert (insert (builtRecord payload idField)),
        some (builtRecord payload idField)⟩ := rfl
  rw [hcreate]
  rcases h with h | h <;> rw [h] <;> rfl

/-- Witness for C5: a concrete insert returning an empty data list. -/
theorem insert_without_row_answers_500_witness :
    (create_reservation ⟨"c1", 10, 20⟩ .ok
        (.response 200 (.object (some "u1")))
        (fun _ => .ok (some []))).resp =
      .err 500 "Failed to create reservation" :=
  insert_without_row_answers_500 ⟨"c1", 10, 20⟩ (some "u1")
    (fun _ => .ok (some [])) (Or.inr rfl)

/-- C6: per-row failures are isolated: for any queried rows and any two
court lookup behaviors, the list endpoint succeeds with status 200, the
returned reservations are exactly the rows that parse, in query order,
with unparseable rows skipped, and the reservation sequence is the same
whatever the enrichment lookups do. -/
theorem per_row_failures_do_not_fail_list
    (rows : List RawRow) (lookup lookup2 : Uuid → CourtLookup) :
    ∃ out out2,
      get_user_reservations .ok (.ok (some rows)) lookup = .ok 200 out ∧
      get_user_reservations .ok (.ok (some rows)) lookup2 = .ok 200 out2 ∧
      out.map Prod.fst = rows.filterMap parseReservation ∧
      out2.map Prod.fst = out.map Prod.fst := by
  rcases rows with _ | ⟨r, rest⟩
  · exact ⟨[], [], rfl, rfl, rfl, rfl⟩
  · refine ⟨processRows lookup (r :: rest), processRows lookup2 (r :: rest),
      rfl, rfl, processRows_map_fst _ _, ?_⟩
    rw [processRows_map_fst, processRows_map_fst]

/-- C7: the query requests descending order on starts_at and the per-row
processing preserves it: whenever the queried rows are pairwise
non-increasing on starts_at, a successful list response is pairwise
non-increasing on the start times of its reservations. -/
theorem list_output_sorted_descending
    (rows : List RawRow) (lookup : Uuid → CourtLookup)
    (out : List EnrichedReservation)
    (hs : List.Pairwise (fun a b => rowDesc a b = true) rows)
    (ho : get_user_reservations .ok (.ok (some rows)) lookup = .ok 200 out) :
    List.Pairwise (fun p q => q.1.starts_at ≤ p.1.starts_at) out := by
  rcases rows with _ | ⟨r, rest⟩
  · have ho2 : (Resp.ok 200 ([] : List EnrichedReservation)) = .ok 200 out := ho
    injection ho2 with _ h
    rw [← h]
    exact List.Pairwise.nil
  · have ho2 : (Resp.ok 200 (processRows lookup (r :: rest))) = .ok 200 out := ho
    injection ho2 with _ h
    rw [← h]
    exact processRows_pairwise _ _ hs

/-- Witness for C7: two concrete rows with descending start times. -/
theorem list_output_sorted_descending_witness :
    List.Pairwise (fun p q => q.1.starts_at ≤ p.1.starts_at)
      (processRows (fun _ => .empty) [rowA, rowB]) :=
  list_output_sorted_descending [rowA, rowB] (fun _ => .empty) _
    (by decide) rfl

/-- C8: a cancel where the backend applies the update and some visible row
matches the identifier, as for the owner of an existing reservation,
answers 200 and the returned row carries cancelled_at set to the current
instant, hence non-null, and cancel_reason equal to the supplied text. -/
theorem owner_cancel_sets_cancellation_fields
    (rid : Uuid) (reason : String) (now : Timestamp)
    (visible : List RawRow) (h : ∃ r ∈ visible, r.id = some rid) :
    ∃ row, cancel_reservation rid reason .ok (.applied now visible) =
        .ok 200 row ∧
      row.cancelled_at = some now ∧ row.cancel_reason = some reason := by
  obtain ⟨r, hr, hid⟩ := h
  have hfilter : visible.filter (fun r => r.id == some rid) ≠ [] := by
    intro hnil
    have hmem := List.filter_eq_nil_iff.mp hnil r hr
    rw [hid] at hmem
    simp at hmem
  rcases hf : visible.filter (fun r => r.id == some rid) with _ | ⟨r0, rest⟩
  · exact absurd hf hfilter
  · refine ⟨⟨r0.id, r0.court_id, r0.user_id, r0.starts_at, r0.ends_at,
      r0.total_price, r0.created_at, some now, some reason⟩, ?_, rfl, rfl⟩
    simp only [cancel_reservation, applyCancel]
    rw [hf]
    rfl

/-- Witness for C8: cancelling the concrete visible row X with reason
weather at instant 7. -/
theorem owner_cancel_sets_cancellation_fields_witness :
    ∃ row, cancel_reservation "X" "weather" .ok (.applied 7 [rowX]) =
        .ok 200 row ∧
      row.cancelled_at = some 7 ∧ row.cancel_reason = some "weather" :=
  owner_cancel_sets_cancellation_fields "X" "weather" 7 [rowX]
    ⟨rowX, List.mem_singleton_self _, rfl⟩

/-- C9: the list endpoint never answers null: every successful response
has status 200 and a list body, and when the query yields no rows, a None
or an empty data attribute, the body is the empty list. -/
theorem list_success_is_a_possibly_empty_list
    (lookup : Uuid → CourtLookup) :
    get_user_reservations .ok (.ok none) lookup = .ok 200 [] ∧
    get_user_reservations .ok (.ok (some [])) lookup = .ok 200 [] ∧
    ∀ client q stat body,
      get_user_reservations client q lookup = .ok stat body → stat = 200 := by
  refine ⟨rfl, rfl, ?_⟩
  intro client q stat body h
  cases client with
  | failure m => exact Resp.noConfusion h
  | ok =>
    cases q with
    | apiError m => exact Resp.noConfusion h
    | failure m => exact Resp.noConfusion h
    | ok data =>
      cases data with
      | none =>
        injection h with h1 _
        exact h1.symm
      | some rows =>
        rcases rows with _ | ⟨r, rest⟩
        · have h2 : (Resp.ok 200 ([] : List EnrichedReservation)) =
              .ok stat body := h
          injection h2 with h1 _
          exact h1.symm
        · have h2 : (Resp.ok 200 (processRows lookup (r :: rest))) =
              .ok stat body := h
          injection h2 with h1 _
          exact h1.symm

/-- Witness for C9: the concrete None data case answers the empty list. -/
theorem list_success_is_a_possibly_empty_list_witness :
    get_user_reservations .ok (.ok none) (fun _ => .empty) = .ok 200 [] :=
  (list_success_is_a_possibly_empty_list (fun _ => .empty)).1

/-- C10: when the identity endpoint answers 200 with a body carrying no id
field, the create handler does not answer 401: it builds the insert record
with user_id equal to the four-letter string None, str applied to the
missing value, and issues the insert. -/
theorem missing_id_field_inserts_user_id_string_None
    (payload : ReservationCreate) (insert : InsertRecord → InsertResult) :
    (create_reservation payload .ok (.response 200 (.object none))
        insert).inserted =
      some ⟨payload.court_id, "None", payload.starts_at, payload.ends_at⟩ ∧
    ∀ stat detail,
      (create_reservation payload .ok (.response 200 (.object none))
          insert).resp = .err stat detail → stat ≠ 401 := by
  constructor
  · rfl
  · intro stat detail h
    have h2 : respOfInsert (insert (builtRecord payload none)) =
        .err stat detail := h
    rcases hir : insert (builtRecord payload none) with m | m | data
    · rw [hir] at h2
      simp only [respOfInsert] at h2
      injection h2 with h3 _
      omega
    · rw [hir] at h2
      simp only [respOfInsert] at h2
      injection h2 with h3 _
      omega
    · rcases data with _ | rows
      · rw [hir] at h2
        simp only [respOfInsert] at h2
        injection h2 with h3 _
        omega
      · rcases rows with _ | ⟨row, rest⟩
        · rw [hir] at h2
          simp only [respOfInsert] at h2
          injection h2 with h3 _
          omega
        · rw [hir] at h2
          simp only [respOfInsert] at h2
          rcases hp : parseReservation row with _ | res
          · rw [hp] at h2
            injection h2 with h3 _
            omega
          · rw [hp] at h2
            exact Resp.noConfusion h2

/-- Witness for C10: a concrete rejected insert shows the record carrying
the string None and a non-401 error. -/
theorem missing_id_field_inserts_user_id_string_None_witness :
    (create_reservation ⟨"c1", 10, 20⟩ .ok (.response 200 (.object none))
        (fun _ => .apiError "denied")).inserted =
      some ⟨"c1", "None", 10, 20⟩ ∧ (400 : Nat) ≠ 401 :=
  ⟨(missing_id_field_inserts_user_id_string_None ⟨"c1", 10, 20⟩
      (fun _ => .apiError "denied")).1,
    (missing_id_field_inserts_user_id_string_None ⟨"c1", 10, 20⟩
      (fun _ => .apiError "denied")).2 400 "denied" rfl⟩

end Booking
